import Mathlib

/-!
Verification development for the `dune-client` table API bindings.

The embedding below follows `dune_client/api/base.py` and
`dune_client/api/table.py`. Pure string formatting becomes Lean string
functions; the HTTP layer is modelled by the request records each verb
method builds and by a response record carrying the status code and the
result of JSON decoding; Python exceptions become an explicit error type
threaded through `Except`/`Outcome`; the `with open(...)` block becomes a
combinator over an explicit file-system state that runs the close action
on every exit path.
-/

namespace DuneClient

/-- JSON values as decoded by `response.json()`. Numbers are modelled as
integers, which suffices for every property considered here. -/
inductive Json where
  | null
  | bool (b : Bool)
  | num (n : Int)
  | str (s : String)
  | arr (xs : List Json)
  | obj (fields : List (String × Json))

/-- Python exceptions that the embedded code can raise. `duneError`
models `DuneError(data, response_class, err)` from `dune_client.models`,
keeping the offending payload and the operation name. -/
inductive PyExc where
  | keyError (k : String)
  | typeError
  | httpError (status : Nat)
  | valueError
  | duneError (payload : Json) (op : String)

/-- Client state set up by `BaseDuneClient.__init__`: the fields are
immutable after construction. -/
structure Client where
  token : String
  client_version : String := "v1"
  performance : String := "medium"
  deriving Repr, DecidableEq

/-- Class attribute `BaseDuneClient.BASE_URL`. -/
def BASE_URL : String := "https://api.dune.com"

/-- Class attribute `BaseDuneClient.DEFAULT_TIMEOUT`. -/
def DEFAULT_TIMEOUT : Nat := 10

/-- Property `BaseDuneClient.api_version`: the string
`f"/api/{self.client_version}"`. -/
def api_version (c : Client) : String :=
  "/api/" ++ c.client_version

/-- Method `BaseDuneClient.default_headers`: the mapping
`{"x-dune-api-key": self.token}`, modelled as an association list. -/
def default_headers (c : Client) : List (String × String) :=
  [("x-dune-api-key", c.token)]

/-- Method `BaseRouter._route_url`: the string
`f"{self.BASE_URL}{self.api_version}{route}"`. -/
def route_url (c : Client) (route : String) : String :=
  BASE_URL ++ api_version c ++ route

/-- An outgoing HTTP request as assembled by the verb methods of
`BaseRouter` right before the call into `requests`. -/
structure HttpRequest where
  method : String
  url : String
  headers : List (String × String)
  timeout : Nat
  queryParams : Option Json
  jsonBody : Option Json

/-- Request assembled by `BaseRouter._get`: `requests.get(url=...,
headers=self.default_headers(), timeout=self.DEFAULT_TIMEOUT,
params=params)`. -/
def getRequest (c : Client) (route : String) (params : Option Json) : HttpRequest :=
  { method := "GET"
    url := route_url c route
    headers := default_headers c
    timeout := DEFAULT_TIMEOUT
    queryParams := params
    jsonBody := none }

/-- Request assembled by `BaseRouter._post`: `requests.post(url=...,
json=params, headers=self.default_headers(),
timeout=self.DEFAULT_TIMEOUT)`. -/
def postRequest (c : Client) (route : String) (params : Option Json) : HttpRequest :=
  { method := "POST"
    url := route_url c route
    headers := default_headers c
    timeout := DEFAULT_TIMEOUT
    queryParams := none
    jsonBody := params }

/-- Request assembled by `BaseRouter._patch`:
`requests.request(method="PATCH", url=..., json=params,
headers={"x-dune-api-key": self.token}, timeout=self.DEFAULT_TIMEOUT)`. -/
def patchRequest (c : Client) (route : String) (params : Json) : HttpRequest :=
  { method := "PATCH"
    url := route_url c route
    headers := [("x-dune-api-key", c.token)]
    timeout := DEFAULT_TIMEOUT
    queryParams := none
    jsonBody := some params }

/-- Keyword parameters accepted by the definition
`def _post(self, route, params=None)` in `base.py` (besides `self`). -/
def postParamNames : List String := ["route", "params"]

/-- Keyword arguments supplied at the `self._post(...)` call site inside
`TableAPI.insert_table` in `table.py`. -/
def insertTablePostCallKwargs : List String := ["route", "headers", "data"]

/-- An HTTP response as seen by `BaseRouter._handle_response`: its status
code, and the result of `response.json()` (`some` decoded value on
success, `none` when decoding raises `JSONDecodeError`). -/
structure HttpResponse where
  status : Nat
  jsonBody : Option Json

/-- Method `requests.Response.raise_for_status`: raises `HTTPError` when
the status code is in `[400, 600)` and is a no-op otherwise. -/
def raise_for_status (r : HttpResponse) : Except PyExc Unit :=
  if 400 ≤ r.status ∧ r.status < 600 then
    Except.error (PyExc.httpError r.status)
  else
    Except.ok ()

/-- Method `BaseRouter._handle_response`: try `response.json()` and
return the decoded value; on `JSONDecodeError`, call
`response.raise_for_status()` and, if that returns, raise
`ValueError("Unreachable since previous line raises")`. -/
def handle_response (r : HttpResponse) : Except PyExc Json :=
  match r.jsonBody with
  | some j => Except.ok j
  | none =>
    match raise_for_status r with
    | Except.error e => Except.error e
    | Except.ok _ => Except.error PyExc.valueError

/-- Python truthiness `bool(v)` on decoded JSON values: `None`, `False`,
zero, and empty strings, lists and dicts are falsy; everything else is
truthy. -/
def truthy : Json → Bool
  | Json.null => false
  | Json.bool b => b
  | Json.num n => n != 0
  | Json.str s => s != ""
  | Json.arr xs => !xs.isEmpty
  | Json.obj fs => !fs.isEmpty

/-- Python subscript `v["k"]` on a decoded JSON value: dict lookup
returns the value or raises `KeyError`; subscripting any non-dict value
with a string key raises `TypeError`. -/
def getItem (v : Json) (k : String) : Except PyExc Json :=
  match v with
  | Json.obj fields =>
    match fields.lookup k with
    | some x => Except.ok x
    | none => Except.error (PyExc.keyError k)
  | _ => Except.error PyExc.typeError

/-- Tail of `TableAPI.upload_csv` applied to the decoded response:
`try: return bool(response_json["success"]) except KeyError as err:
raise DuneError(response_json, "UploadCsvResponse", err)`. Only
`KeyError` is caught; any other exception propagates unchanged. -/
def upload_csv_handle (response_json : Json) : Except PyExc Bool :=
  match getItem response_json "success" with
  | Except.ok v => Except.ok (truthy v)
  | Except.error (PyExc.keyError _) =>
    Except.error (PyExc.duneError response_json "UploadCsvResponse")
  | Except.error e => Except.error e

/-- Python `str.split` with the one-character separator `"."`, as a
structural recursion over the character list: splitting the empty string
yields one empty piece, and each dot starts a new piece. -/
def splitOnDot : List Char → List (List Char)
  | [] => [[]]
  | c :: rest =>
    match splitOnDot rest with
    | [] => [[c]]
    | g :: gs => if c = '.' then [] :: g :: gs else (c :: g) :: gs

/-- Expression `path.split(".")[-1]` from `TableAPI.insert_table`:
the substring after the last dot, or the whole path when it has none. -/
def file_extension (path : String) : String :=
  String.mk ((splitOnDot path.data).getLastD [])

/-- Conditional expression computing the `Content-Type` value inside
`TableAPI.insert_table`: `"text/csv"` for extension `csv`,
`"application/x-ndjson"` for `json` or `jsonl`, and `None` otherwise. -/
def contentTypeFor (path : String) : Option String :=
  if file_extension path == "csv" then
    some "text/csv"
  else if file_extension path == "json" || file_extension path == "jsonl" then
    some "application/x-ndjson"
  else
    none

/-- Outcome of running a block of Python code: a returned value or a
raised exception. -/
inductive Outcome (α : Type) where
  | ok (a : α)
  | exc (e : PyExc)

/-- File-system state tracking which file handles are open. -/
structure FileSys where
  nextId : Nat
  openIds : List Nat
  deriving Repr, DecidableEq

/-- Opening a file allocates a fresh handle and records it as open. -/
def fsOpen (fs : FileSys) : FileSys × Nat :=
  ({ nextId := fs.nextId + 1, openIds := fs.nextId :: fs.openIds }, fs.nextId)

/-- Closing a handle removes it from the open set. -/
def fsClose (fs : FileSys) (h : Nat) : FileSys :=
  { fs with openIds := fs.openIds.erase h }

/-- Semantics of `with open(path, "rb") as data: body`: the file is
opened, the body runs, and the close action runs on every exit path,
whether the body returned normally or raised; a raised exception still
propagates after the close. -/
def withOpen (body : FileSys → Nat → FileSys × Outcome α) (fs : FileSys) :
    FileSys × Outcome α :=
  let opened := fsOpen fs
  let ran := body opened.1 opened.2
  (fsClose ran.1 opened.2, ran.2)

/-- Method `TableAPI.insert_table`: compute the content type from the
path, open the file, call `self._post(...)` inside the `with` block and
return its result. The behaviour of the underlying POST is external to
the client, so it is a parameter: `postOutcome` is what the call to
`self._post` does (returns a decoded response or raises). -/
def insert_table (path : String) (postOutcome : Outcome Json) (fs : FileSys) :
    FileSys × Outcome Json :=
  let _contentType := contentTypeFor path
  withOpen (fun s _h => (s, postOutcome)) fs

/-- C1: insert_table computes the extension-based content type exactly as
claimed (`csv` to `text/csv`, `json`/`jsonl` to `application/x-ndjson`,
otherwise none), but the POST it issues never carries that header: the
call site passes a `headers` keyword that the definition of `_post` does
not accept, and every request `_post` assembles carries only the default
headers, which contain no `Content-Type` entry. -/
theorem c1_content_type_never_attached :
    contentTypeFor "foo.csv" = some "text/csv" ∧
    contentTypeFor "foo.json" = some "application/x-ndjson" ∧
    contentTypeFor "foo.jsonl" = some "application/x-ndjson" ∧
    contentTypeFor "foo.txt" = none ∧
    "headers" ∈ insertTablePostCallKwargs ∧
    "headers" ∉ postParamNames ∧
    ∀ (c : Client) (route : String) (params : Option Json),
      (postRequest c route params).headers = default_headers c ∧
      ((postRequest c route params).headers).lookup "Content-Type" = none := by
  refine ⟨by decide, by decide, by decide, by decide, by decide, by decide, ?_⟩
  intro c route params
  constructor
  · rfl
  · simp [postRequest, default_headers, List.lookup]

/-- C2: on a decoded JSON object response, upload_csv returns the boolean
stored under the key `success` when that key is present with a boolean
value, and raises `DuneError` carrying the offending payload and the
shape name `UploadCsvResponse` when the key is absent. -/
theorem c2_upload_csv_success_field (fields : List (String × Json)) (b : Bool) :
    (fields.lookup "success" = some (Json.bool b) →
      upload_csv_handle (Json.obj fields) = Except.ok b) ∧
    (fields.lookup "success" = none →
      upload_csv_handle (Json.obj fields) =
        Except.error (PyExc.duneError (Json.obj fields) "UploadCsvResponse")) := by
  constructor
  · intro h
    simp [upload_csv_handle, getItem, h, truthy]
  · intro h
    simp [upload_csv_handle, getItem, h]

/-- Witness for C2 at concrete responses: success true, success false,
and a response missing the success key. -/
theorem c2_upload_csv_success_field_witness :
    upload_csv_handle (Json.obj [("success", Json.bool true)]) = Except.ok true ∧
    upload_csv_handle (Json.obj [("success", Json.bool false)]) = Except.ok false ∧
    upload_csv_handle (Json.obj [("table", Json.str "t")]) =
      Except.error (PyExc.duneError (Json.obj [("table", Json.str "t")])
        "UploadCsvResponse") :=
  ⟨(c2_upload_csv_success_field [("success", Json.bool true)] true).1 rfl,
   (c2_upload_csv_success_field [("success", Json.bool false)] false).1 rfl,
   (c2_upload_csv_success_field [("table", Json.str "t")] true).2 rfl⟩

/-- C3 counterexample: a response with status 301 (a non-2xx code) whose
body fails JSON decoding makes handle_response raise `ValueError`, not an
HTTP-status-derived error, because `raise_for_status` only raises for
status codes in `[400, 600)`. -/
theorem c3_counterexample_301_not_http_error :
    handle_response { status := 301, jsonBody := none } =
      Except.error PyExc.valueError ∧
    ∀ s : Nat, handle_response { status := 301, jsonBody := none } ≠
      Except.error (PyExc.httpError s) := by
  constructor
  · simp [handle_response, raise_for_status]
  · intro s
    simp [handle_response, raise_for_status]

/-- C3 (amended): for every response whose body fails JSON decoding and
whose status is in the 4xx or 5xx range, handle_response fails with the
HTTP-status-derived error carrying that status, not a decode error. -/
theorem c3_http_error_for_4xx_5xx (r : HttpResponse) (hj : r.jsonBody = none)
    (h4 : 400 ≤ r.status) (h6 : r.status < 600) :
    handle_response r = Except.error (PyExc.httpError r.status) := by
  unfold handle_response raise_for_status
  rw [hj, if_pos ⟨h4, h6⟩]

/-- Witness for the amended C3 at a concrete 500 response with an
undecodable body. -/
theorem c3_http_error_for_4xx_5xx_witness :
    handle_response { status := 500, jsonBody := none } =
      Except.error (PyExc.httpError 500) :=
  c3_http_error_for_4xx_5xx { status := 500, jsonBody := none } rfl
    (by decide) (by decide)

/-- C4: whenever the response body decodes as valid JSON, handle_response
returns the decoded value whatever the status code is; in particular a
non-2xx response with a valid JSON body is returned, not raised. -/
theorem c4_valid_json_returned (r : HttpResponse) (j : Json)
    (hj : r.jsonBody = some j) : handle_response r = Except.ok j := by
  simp [handle_response, hj]

/-- Witness for C4 at a concrete 500 response with a valid JSON body. -/
theorem c4_valid_json_returned_witness :
    handle_response
        { status := 500, jsonBody := some (Json.obj [("error", Json.str "boom")]) } =
      Except.ok (Json.obj [("error", Json.str "boom")]) :=
  c4_valid_json_returned
    { status := 500, jsonBody := some (Json.obj [("error", Json.str "boom")]) }
    (Json.obj [("error", Json.str "boom")]) rfl

/-- C5: for every path, every file-system state and every behaviour of
the underlying POST (normal return or raised exception), insert_table
leaves the set of open file handles unchanged — the handle it opened is
closed on both exit paths — and the outcome of the POST is passed
through. -/
theorem c5_insert_table_closes_file (path : String) (outcome : Outcome Json)
    (fs : FileSys) :
    (insert_table path outcome fs).1.openIds = fs.openIds ∧
    (insert_table path outcome fs).2 = outcome := by
  constructor
  · simp [insert_table, withOpen, fsOpen, fsClose, List.erase_cons_head]
  · rfl

/-- C6: every request assembled by the verb methods carries the auth
header `x-dune-api-key` bound to the stored token, and the fixed
10-second timeout. -/
theorem c6_auth_header_and_timeout (c : Client) (route : String)
    (params : Option Json) (body : Json) :
    ("x-dune-api-key", c.token) ∈ (getRequest c route params).headers ∧
    (getRequest c route params).timeout = 10 ∧
    ("x-dune-api-key", c.token) ∈ (postRequest c route params).headers ∧
    (postRequest c route params).timeout = 10 ∧
    ("x-dune-api-key", c.token) ∈ (patchRequest c route body).headers ∧
    (patchRequest c route body).timeout = 10 := by
  refine ⟨?_, rfl, ?_, rfl, ?_, rfl⟩ <;>
    simp [getRequest, postRequest, patchRequest, default_headers]

/-- C7: route_url is pure and deterministic in the base origin, the
configured version and the route: it is exactly the concatenation of the
fixed base origin, the segment `/api/` followed by the version, and the
route; two clients with the same version produce the same URL; and for
version v1 and route `/table/upload/csv` it yields the claimed URL. -/
theorem c7_route_url_concatenation (c d : Client) (route : String)
    (hv : c.client_version = d.client_version) :
    route_url c route =
      "https://api.dune.com" ++ ("/api/" ++ c.client_version) ++ route ∧
    route_url c route = route_url d route ∧
    route_url { token := c.token, client_version := "v1" } "/table/upload/csv" =
      "https://api.dune.com/api/v1/table/upload/csv" := by
  refine ⟨rfl, ?_, rfl⟩
  simp [route_url, api_version, hv]

/-- Witness for C7 at two concrete clients sharing the version v1 but
holding different tokens. -/
theorem c7_route_url_concatenation_witness :
    route_url { token := "k1" } "/table/upload/csv" =
      "https://api.dune.com" ++ ("/api/" ++ Client.client_version { token := "k1" }) ++
        "/table/upload/csv" ∧
    route_url { token := "k1" } "/table/upload/csv" =
      route_url { token := "k2" } "/table/upload/csv" ∧
    route_url { token := "k1", client_version := "v1" } "/table/upload/csv" =
      "https://api.dune.com/api/v1/table/upload/csv" :=
  c7_route_url_concatenation { token := "k1" } { token := "k2" }
    "/table/upload/csv" rfl

/-- C8: for every client, default_headers returns exactly the singleton
mapping binding `x-dune-api-key` to the configured token: the auth key
occurs exactly once and looks up to the token; as a Lean function it has
no side effects. -/
theorem c8_default_headers_exact (c : Client) :
    default_headers c = [("x-dune-api-key", c.token)] ∧
    ((default_headers c).map Prod.fst).count "x-dune-api-key" = 1 ∧
    (default_headers c).lookup "x-dune-api-key" = some c.token := by
  refine ⟨rfl, ?_, ?_⟩
  · simp [default_headers]
  · simp [default_headers, List.lookup]

/-- C9: for every response with a 2xx status whose body is not valid
JSON, raise_for_status does not raise, so handle_response falls through
to the `ValueError` branch rather than any HTTP-status-derived error. -/
theorem c9_2xx_non_json_value_error (r : HttpResponse) (hj : r.jsonBody = none)
    (h2 : 200 ≤ r.status) (h3 : r.status < 300) :
    handle_response r = Except.error PyExc.valueError := by
  unfold handle_response raise_for_status
  rw [hj, if_neg]
  intro hcon
  omega

/-- Witness for C9 at a concrete 200 response with an undecodable body. -/
theorem c9_2xx_non_json_value_error_witness :
    handle_response { status := 200, jsonBody := none } =
      Except.error PyExc.valueError :=
  c9_2xx_non_json_value_error { status := 200, jsonBody := none } rfl
    (by decide) (by decide)

/-- C10: upload_csv wraps only KeyError into the domain error: on
non-mapping decoded responses such as arrays and strings the subscript
raises TypeError, which propagates unwrapped; and on a mapping with the
key present, the returned value is the truthiness coercion of the field,
not necessarily a boolean field value. -/
theorem c10_type_error_and_truthiness (xs : List Json) (s : String)
    (fields : List (String × Json)) (v : Json)
    (hv : fields.lookup "success" = some v) :
    upload_csv_handle (Json.arr xs) = Except.error PyExc.typeError ∧
    upload_csv_handle (Json.str s) = Except.error PyExc.typeError ∧
    upload_csv_handle (Json.obj fields) = Except.ok (truthy v) ∧
    truthy (Json.str "yes") = true ∧
    truthy (Json.num 0) = false := by
  refine ⟨rfl, rfl, ?_, by decide, by decide⟩
  simp [upload_csv_handle, getItem, hv]

/-- Witness for C10 at a concrete array response and a concrete mapping
whose success field is the non-boolean string yes. -/
theorem c10_type_error_and_truthiness_witness :
    upload_csv_handle (Json.arr []) = Except.error PyExc.typeError ∧
    upload_csv_handle (Json.str "x") = Except.error PyExc.typeError ∧
    upload_csv_handle (Json.obj [("success", Json.str "yes")]) =
      Except.ok (truthy (Json.str "yes")) ∧
    truthy (Json.str "yes") = true ∧
    truthy (Json.num 0) = false :=
  c10_type_error_and_truthiness [] "x" [("success", Json.str "yes")]
    (Json.str "yes") rfl

end DuneClient
